import Mathlib

/-!
Shallow embedding of the mikeio dfs time-series writer/reader core
(`src/mikeio/dfs.py`) and of the layered-mesh query / surface-extraction
subsystem (`src/mikeio/dfsu_layered.py`), together with theorems settling
the specification claims about them.

Conventions of the embedding:
* a stored cell is `Value := Option ℚ`; `none` models NaN ("missing"),
  matching the spec's missing-value marker; timestamps are rationals
  measured in seconds;
* Python exceptions become `Except` / explicit error constructors;
* the nested `for i in range(n_timesteps): for item in range(n_items):`
  loops become a fold over the explicit list of `(i, item)` pairs in
  source order, stopping at the first raised error.
-/

namespace Mikeio

instance {ε α : Type} [DecidableEq ε] [DecidableEq α] :
    DecidableEq (Except ε α)
  | .error e, .error f =>
    if h : e = f then .isTrue (by rw [h]) else .isFalse (by simp [h])
  | .error _, .ok _ => .isFalse (by simp)
  | .ok _, .error _ => .isFalse (by simp)
  | .ok a, .ok b =>
    if h : a = b then .isTrue (by rw [h]) else .isFalse (by simp [h])

/-- A cell of a record: `none` models NaN (a missing value). -/
abbrev Value := Option ℚ

/-- Replacement of NaN cells by the file delete-value sentinel followed by
`astype(np.float32)`: the buffer handed to `WriteItemTimeStepNext`. -/
def substNaN (dv : ℚ) (row : List Value) : List ℚ :=
  row.map (fun c => c.getD dv)

/-- Embedding of the record-preparation statements
`d = d.copy(); d[np.isnan(d)] = deletevalue; ... d.astype(np.float32)`
(src/mikeio/dfs.py lines 229-231, 258-260 and 36-38).  `d = d.copy()`
allocates a fresh buffer, so the masked assignment mutates the copy and
not the dataset's own row.  The first component is the buffer handed to
the collaborator; the second is the dataset's row after the statements
(had the source dropped the `.copy()`, the masked assignment would have
hit the row itself and the second component would be the masked row). -/
def prepareRecord (dv : ℚ) (row : List Value) : List ℚ × List Value :=
  let d := row.map id
  let d := d.map (fun c => some (c.getD dv))
  (d.map (fun c => c.getD dv), row)

/-- One item of a Dataset: its numpy shape (`np.shape`, time axis included
when present) and its values as a time-major list of flat spatial rows
(a time-less array is a single row). -/
structure DataArrayM where
  shape : List Nat
  vals : List (List Value)
deriving Repr, DecidableEq

/-- The in-memory `mikeio.Dataset` as the writer consumes it: the ordered
items and the shared time axis (timestamps in seconds). -/
structure DatasetM where
  data : List DataArrayM
  time : List ℚ
deriving Repr, DecidableEq

/-- Consecutive timestamp differences of a time axis. -/
def timeDiffs (ts : List ℚ) : List ℚ :=
  List.zipWith (fun a b => a - b) (ts.drop 1) ts

/-- Modelled from the spec: `Dataset.is_equidistant` (the Dataset class is
not under src/).  Per §3 TimeAxis and the glossary, a time axis is
equidistant iff it has a fixed step, i.e. all consecutive timestamp
differences agree. -/
def isEquidistantTime (ts : List ℚ) : Bool :=
  (timeDiffs ts).all (fun d => d = (timeDiffs ts).headD 0)

/-- Errors raised by the writer paths of `_Dfs123`. -/
inductive WriteError
  | dataDimensionMismatch
  | notImplemented
  | indexError
deriving Repr, DecidableEq

/-- State produced by `_Dfs123._write_handle_common_arguments`
(src/mikeio/dfs.py lines 286-337): the fields later writer stages read,
plus whether the "No timestep supplied. Using 1s." warning was emitted. -/
structure CommonArgs where
  n_timesteps : Nat
  n_items : Nat
  start_time : ℚ
  dt : ℚ
  warned : Bool
deriving Repr, DecidableEq

/-- The step `self._dt` derived from the Dataset's time axis in
`_Dfs123._write_handle_common_arguments` (src/mikeio/dfs.py lines
320-321): guard `if dt is None and len(data.time) > 1:`, value
`(data.time[1] - data.time[0]).total_seconds()`. -/
def dtDerived (ds : DatasetM) (dt : Option ℚ) : Option ℚ :=
  if dt = none ∧ 1 < ds.time.length then
    some (ds.time.getD 1 0 - ds.time.getD 0 0)
  else none

/-- The value `self._dt` holds after the derivation above and the later
reassignment `if dt: self._dt = dt` (src/mikeio/dfs.py lines 326-327).
The `if dt:` is a Python truthiness test, so the explicit argument is
taken only when it is neither `None` nor `0`; `none` here means both
guards failed and `self._dt` is still `None`. -/
def dtChosen (ds : DatasetM) (dt : Option ℚ) : Option ℚ :=
  match dt with
  | some v => if v = 0 then dtDerived ds dt else some v
  | none => dtDerived ds dt

/-- Embedding of `_Dfs123._write_handle_common_arguments`
(src/mikeio/dfs.py lines 286-337) for a `Dataset` argument (anything
else raises `TypeError`).  `self._n_timesteps` and `self._start_time`
are taken from the Dataset's time axis, `self._n_items` from its item
count; a still-`None` `self._dt` falls back to `1` second, warning when
there is more than one timestep (src lines 329-332). -/
def writeHandleCommonArguments (ds : DatasetM) (dt : Option ℚ) : CommonArgs :=
  { n_timesteps := ds.time.length
    n_items := ds.data.length
    start_time := ds.time.headD 0
    dt := (dtChosen ds dt).getD 1
    warned := (dtChosen ds dt).isNone && decide (1 < ds.time.length) }

/-- The `(timestep, item)` pairs visited by the nested loops
`for i in trange(self._n_timesteps): for item in range(self._n_items):`
in source order. -/
def loopPairs (nT nI : Nat) : List (Nat × Nat) :=
  (List.range nT).flatMap (fun i => (List.range nI).map (fun it => (i, it)))

/-- Runs the loop body over the pairs in order; a raised error aborts the
loop, keeping the records emitted before it. -/
def runSteps {α : Type} (step : Nat × Nat → Except WriteError α) :
    List (Nat × Nat) → List α × Option WriteError
  | [] => ([], none)
  | p :: rest =>
    match step p with
    | .error e => ([], some e)
    | .ok a =>
      let r := runSteps step rest
      (a :: r.1, r.2)

/-- The row the write loop reads:
`d = self._data[item][i] if t_offset == 1 else self._data[item]`
(src/mikeio/dfs.py line 229); `none` models the `IndexError` Python would
raise. -/
def rowAt (tOff : Nat) (data : List DataArrayM) (item i : Nat) :
    Option (List Value) :=
  (data.get? item).bind (fun a => if tOff = 1 then a.vals.get? i else a.vals.get? 0)

/-- One iteration of the `_Dfs123._write` record loop
(src/mikeio/dfs.py lines 226-238): fetch the row, prepare the record and
emit it with relative time `0` on an equidistant axis and
`(neq_datetimes[i] - self._start_time).total_seconds()` otherwise.  The
timestamp lookup uses `getD` because the loop bound
`self._n_timesteps` equals `len(data.time)`, so `neq_datetimes[i]` is
always in range. -/
def writeStep (dv : ℚ) (equid : Bool) (startTime : ℚ) (time : List ℚ)
    (tOff : Nat) (data : List DataArrayM) (p : Nat × Nat) :
    Except WriteError (ℚ × List ℚ) :=
  match rowAt tOff data p.2 p.1 with
  | none => .error .indexError
  | some row =>
    if equid then .ok (0, (prepareRecord dv row).1)
    else .ok (time.getD p.1 0 - startTime, (prepareRecord dv row).1)

/-- The dataset's rows after a write/append loop: every row the loop read
is left as `prepareRecord`'s second component; rows the loop never read
are untouched, so the map is stated uniformly over all rows. -/
def dataAfterWrite (dv : ℚ) (data : List DataArrayM) : List DataArrayM :=
  data.map (fun a => { a with vals := a.vals.map (fun r => (prepareRecord dv r).2) })

/-- Shape of `data[0]` in `_write` (src/mikeio/dfs.py line 190). -/
def writeShape0 (ds : DatasetM) : List Nat :=
  (ds.data.headD ⟨[], []⟩).shape

/-- The `t_offset` of `_write` (src/mikeio/dfs.py line 191): `0` when the
first item is purely spatial, `1` when it carries a leading time axis. -/
def writeTOff (ndim : Nat) (ds : DatasetM) : Nat :=
  if (writeShape0 ds).length = ndim then 0 else 1

/-- Observable outcome of a completed `_Dfs123._write` call: the records
pushed to `WriteItemTimeStepNext` as `(relative time, buffer)` pairs, the
start time handed to the temporal-axis builder in `_setup_header`, the
axis kind the file is given, the caller's data after the loop, and the
first error the loop raised (if any). -/
structure WriteOut where
  records : List (ℚ × List ℚ)
  fileStart : ℚ
  axisEquidistant : Bool
  dataAfter : List DataArrayM
  err : Option WriteError
deriving Repr, DecidableEq

/-- Embedding of `_Dfs123._write` (src/mikeio/dfs.py lines 171-243) for a
grid of dimensionality `ndim` (1, 2 or 3).  The per-axis spatial checks
against item 0's shape are performed for `ndim = 1` (x) and `ndim = 2`
(y then x) only — the source has no such check for `ndim = 3` — and they
precede `_setup_header` (file creation) and the record loop, so a
`DataDimensionMismatch` leaves no file behind.  A non-equidistant time
axis switches the file to a non-equidistant calendar axis and makes
`data.time[0]` the start time.
The outcome `_write` produces once the spatial checks have passed:
`_setup_header` gives the file `self._start_time` (which the
non-equidistant branch just reassigned to `data.time[0]`) and the axis
kind of `self._is_equidistant`, then the record loop runs over
`(self._n_timesteps, self._n_items)`. -/
def dfsWriteOk (ndim : Nat) (dv : ℚ) (ds : DatasetM) (dt : Option ℚ) : WriteOut :=
  let equid := isEquidistantTime ds.time
  let args := writeHandleCommonArguments ds dt
  let startTime := if equid then args.start_time else ds.time.headD 0
  let r := runSteps (writeStep dv equid startTime ds.time (writeTOff ndim ds) ds.data)
    (loopPairs args.n_timesteps args.n_items)
  { records := r.1, fileStart := startTime, axisEquidistant := equid,
    dataAfter := dataAfterWrite dv ds.data, err := r.2 }

def dfsWrite (ndim : Nat) (dv : ℚ) (ds : DatasetM) (dt : Option ℚ) :
    Except WriteError WriteOut :=
  if ndim = 1 ∧ ¬ (ds.data.all (fun a =>
      a.shape.getD (writeTOff ndim ds) 0 = (writeShape0 ds).getD (writeTOff ndim ds) 0)) then
    .error .dataDimensionMismatch
  else if ndim = 2 ∧ ¬ (ds.data.all (fun a =>
      a.shape.getD (writeTOff ndim ds) 0 = (writeShape0 ds).getD (writeTOff ndim ds) 0)) then
    .error .dataDimensionMismatch
  else if ndim = 2 ∧ ¬ (ds.data.all (fun a =>
      a.shape.getD (writeTOff ndim ds + 1) 0 = (writeShape0 ds).getD (writeTOff ndim ds + 1) 0)) then
    .error .dataDimensionMismatch
  else .ok (dfsWriteOk ndim dv ds dt)

/-- One iteration of the `_Dfs123.append` loop (src/mikeio/dfs.py lines
255-274): `d = data[item].to_numpy()[i]` (an out-of-range index raises
`IndexError`), then copy/mask/reshape, then either emit the record (the
2-D reshape-and-flatten leaves the flat contents unchanged) or, on a
non-equidistant file, raise `NotImplementedError`. -/
def appendStep (dv : ℚ) (equid : Bool) (data : List DataArrayM) (p : Nat × Nat) :
    Except WriteError (List ℚ) :=
  match (data.get? p.2).bind (fun a => a.vals.get? p.1) with
  | none => .error .indexError
  | some row =>
    if equid then .ok (prepareRecord dv row).1
    else .error .notImplemented

/-- Observable outcome of `_Dfs123.append`: records emitted, first error
raised, whether `Close()` was called on the handle, and the appended
dataset's rows after the loop. -/
structure AppendOut where
  records : List (List ℚ)
  err : Option WriteError
  closed : Bool
  dataAfter : List DataArrayM
deriving Repr, DecidableEq

/-- Embedding of `_Dfs123.append` (src/mikeio/dfs.py lines 245-274).
`nT` and `nI` are the engine's stored `self._n_timesteps` and
`self._n_items` (set by the preceding `write`), `equid` its stored
`self._is_equidistant`, and `data` the appended dataset's items.  The
method body never calls `self._dfs.Close()`. -/
def dfsAppend (dv : ℚ) (equid : Bool) (nT nI : Nat) (data : List DataArrayM) :
    AppendOut :=
  let r := runSteps (appendStep dv equid data) (loopPairs nT nI)
  { records := r.1, err := r.2, closed := false,
    dataAfter := dataAfterWrite dv data }

/-- An open dfs file handle (opaque to this layer). -/
abbrev DfsHandle := Nat

/-- Embedding of the file-creation tail of `_Dfs123._setup_header`
(src/mikeio/dfs.py lines 370-376).  The argument is the outcome of
`self._builder.CreateFile(filename)`: `.ok ()` when the file was created,
`.error msg` when an `IOError` was raised.  The source wraps the call in
`try/except IOError`, prints a message in the handler, and then
unconditionally returns `self._builder.GetFile()` — which is a null
handle (`none`) when no file was created.  The result records what the
caller of `_setup_header` observes: `.error` would mean the exception
propagated, `.ok h` that the call returned handle `h`. -/
def setupHeaderFile (create : Except String Unit) (h : DfsHandle) :
    Except String (Option DfsHandle) :=
  match create with
  | .ok _ => .ok (some h)
  | .error _ => .ok none

/-- The shape the read buffers are allocated with
(src/mikeio/dfs.py lines 100-113): a leading time axis of length
`nt = 1` for a single selected time (or the selection length otherwise),
dropped when a single time is selected without `keepdims`. -/
def readAllocShape (ndim nx ny nz ntSel : Nat) (singleTime keepdims : Bool) :
    List Nat :=
  let nt := if singleTime then 1 else ntSel
  let shape :=
    if ndim = 1 then [nt, nx]
    else if ndim = 2 then [nt, ny, nx]
    else [nt, nz, ny, nx]
  if singleTime ∧ ¬ keepdims then shape.drop 1 else shape

/-- The shape of `data_list[item]` after the read loop
(src/mikeio/dfs.py lines 117-133).  Each `ReadItemTimeStep` returns a
flat buffer (length `nx`, `ny*nx` or `nz*ny*nx`), reshaped to
`(ny, nx)` only when `ndim = 2`.  When a single time is selected the
statement `data_list[item] = d` rebinds the list entry to that record —
for any value of `keepdims` — discarding the allocated buffer; otherwise
the record is assigned into row `i` of the allocated buffer. -/
def readFinalItemShape (ndim nx ny nz ntSel : Nat) (singleTime keepdims : Bool) :
    List Nat :=
  if singleTime then
    if ndim = 2 then [ny, nx]
    else if ndim = 1 then [nx]
    else [nz * ny * nx]
  else readAllocShape ndim nx ny nz ntSel singleTime keepdims

/-- Outcome of a layer-dependent query on `DfsuLayered`: the answer, or
the `print`-and-`return None` path, or a raised `InvalidGeometry`. -/
inductive LayerQueryOutcome (α : Type)
  | ok (a : α)
  | printedNone
  | invalidGeometry
deriving Repr, DecidableEq

/-- A `DfsuLayered` object as the layer-dependent queries see it:
`self.n_layers` (the geometry's `_n_layers`, `none` for a non-layered
mesh) and the underlying geometry's answers, which the queries merely
forward when layers exist.  The geometry class itself
(`GeometryFMLayered`) is not under src/; per spec §4.5 its accessors
return the decoded connectivity structures, modelled here as stored
tables. -/
structure DfsuLayeredM where
  n_layers : Option Nat
  geomTopElements : List Nat
  geomBottomElements : List Nat
  geomNLayersPerColumn : List Nat
  geomE2E3Table : List (List Nat)
  geomLayerIds : List Nat
  geomElem2dIds : List Nat
  geomLayerElements : List (List Nat)
deriving Repr, DecidableEq

/-- Embedding of `DfsuLayered.top_elements` (src/mikeio/dfsu_layered.py
lines 64-70): on a layer-less geometry it prints a message and returns
`None`. -/
def top_elements (g : DfsuLayeredM) : LayerQueryOutcome (List Nat) :=
  match g.n_layers with
  | none => .printedNone
  | some _ => .ok g.geomTopElements

/-- Embedding of `DfsuLayered.bottom_elements` (lines 80-86): prints and
returns `None` on a layer-less geometry. -/
def bottom_elements (g : DfsuLayeredM) : LayerQueryOutcome (List Nat) :=
  match g.n_layers with
  | none => .printedNone
  | some _ => .ok g.geomBottomElements

/-- Embedding of `DfsuLayered.n_layers_per_column` (lines 72-78): prints
and returns `None` on a layer-less geometry. -/
def n_layers_per_column (g : DfsuLayeredM) : LayerQueryOutcome (List Nat) :=
  match g.n_layers with
  | none => .printedNone
  | some _ => .ok g.geomNLayersPerColumn

/-- Embedding of `DfsuLayered.e2_e3_table` (lines 42-48): prints and
returns `None` on a layer-less geometry. -/
def e2_e3_table (g : DfsuLayeredM) : LayerQueryOutcome (List (List Nat)) :=
  match g.n_layers with
  | none => .printedNone
  | some _ => .ok g.geomE2E3Table

/-- Embedding of `DfsuLayered.layer_ids` (lines 57-62): raises
`InvalidGeometry` on a layer-less geometry. -/
def layer_ids (g : DfsuLayeredM) : LayerQueryOutcome (List Nat) :=
  match g.n_layers with
  | none => .invalidGeometry
  | some _ => .ok g.geomLayerIds

/-- Embedding of `DfsuLayered.elem2d_ids` (lines 50-55): raises
`InvalidGeometry` on a layer-less geometry. -/
def elem2d_ids (g : DfsuLayeredM) : LayerQueryOutcome (List Nat) :=
  match g.n_layers with
  | none => .invalidGeometry
  | some _ => .ok g.geomElem2dIds

/-- Embedding of `DfsuLayered.get_layer_elements` (lines 88-92): raises
`InvalidGeometry` on a layer-less geometry, otherwise delegates to the
geometry. -/
def get_layer_elements (g : DfsuLayeredM) (layer : Nat) :
    LayerQueryOutcome (List Nat) :=
  match g.n_layers with
  | none => .invalidGeometry
  | some _ => .ok (g.geomLayerElements.getD layer [])

/-- Squared Euclidean distance between two plane points (monotone in the
Euclidean distance, so nearest-by-distance is nearest-by-`dist2`). -/
def dist2 (p q : ℚ × ℚ) : ℚ :=
  (p.1 - q.1) * (p.1 - q.1) + (p.2 - q.2) * (p.2 - q.2)

/-- The 2-D projection geometry used by
`Dfsu3D.extract_surface_elevation_from_3d`
(src/mikeio/dfsu_layered.py lines 245-251): `xye` (top-layer element
centers) and `xyn` (surface node coordinates). -/
structure SurfaceGeom where
  elemCenters : List (ℚ × ℚ)
  nodeCoords : List (ℚ × ℚ)
deriving Repr, DecidableEq

/-- Distance key from element `e`'s center to node `j`. -/
def nodeDist (g : SurfaceGeom) (e j : Nat) : ℚ :=
  dist2 (g.elemCenters.getD e (0, 0)) (g.nodeCoords.getD j (0, 0))

/-- Modelled from the spec: the k-nearest-neighbor query
`tree2d.query(xye, k=n_nearest)` of the external `scipy` k-d tree
(spec §4.6: "query the `n_nearest` closest nodes and their Euclidean
distances").  Repeated selection of the remaining index of least
distance; ties go to the smaller index, a deterministic
implementation-defined order per §9. -/
def kQueryGo (f : Nat → ℚ) : Nat → List Nat → List Nat
  | 0, _ => []
  | k + 1, rem =>
    match rem.argmin f with
    | none => []
    | some i => i :: kQueryGo f k (rem.erase i)

/-- The indices of the `k` nodes nearest under distance key `f` among
`0, …, n-1`. -/
def kQuery (f : Nat → ℚ) (n k : Nat) : List Nat :=
  kQueryGo f k (List.range n)

/-- Modelled from the spec: `get_idw_interpolant`
(mikeio.interpolation, not under src/): inverse-distance weights
`w_k = (1/d_k) / Σ_j (1/d_j)` (spec §4.6). -/
def idwWeights (ds : List ℚ) : List ℚ :=
  ds.map (fun d => (1 / d) / (ds.map (fun e => 1 / e)).sum)

/-- Modelled from the spec: `interp2d` (mikeio.interpolation, not under
src/).  With `weights = none` (the `n_nearest = 1` path) each output
element takes its single listed node's value directly; with weights it
takes the weighted sum over its listed nodes (spec §4.6). -/
def interp2d (zn : List (List ℚ)) (nodeIds : List (List Nat))
    (weights : Option (List (List ℚ))) : List (List ℚ) :=
  match weights with
  | none =>
    zn.map (fun row => nodeIds.map (fun ids => row.getD (ids.headD 0) 0))
  | some ws =>
    zn.map (fun row =>
      (nodeIds.zip ws).map (fun pr =>
        ((pr.1.map (fun j => row.getD j 0)).zip pr.2 |>.map
          (fun xw => xw.1 * xw.2)).sum))

/-- The weights `extract_surface_elevation_from_3d` passes to `interp2d`
(src/mikeio/dfsu_layered.py lines 252-255): `None` when `n_nearest == 1`,
inverse-distance weights of the query distances otherwise. -/
def surfWeights (g : SurfaceGeom) (k : Nat) : Option (List (List ℚ)) :=
  if k = 1 then none
  else
    some ((List.range g.elemCenters.length).map (fun e =>
      idwWeights ((kQuery (nodeDist g e) g.nodeCoords.length k).map (nodeDist g e))))

/-- Embedding of the interpolation core of
`Dfsu3D.extract_surface_elevation_from_3d`
(src/mikeio/dfsu_layered.py lines 245-263): per-element nearest-node
query, the `n_nearest == 1` weight special case, and `interp2d` applied
to the surface-node values `zn` (time-major rows over surface nodes). -/
def extractSurface (g : SurfaceGeom) (zn : List (List ℚ)) (k : Nat) :
    List (List ℚ) :=
  let nodeIds := (List.range g.elemCenters.length).map (fun e =>
    kQuery (nodeDist g e) g.nodeCoords.length k)
  interp2d zn nodeIds (surfWeights g k)

/-- A 3-D dataset (one timestep) whose two items disagree in spatial
shape: item 0 is `(1, 2, 2, 2)`, item 1 is `(1, 2, 2, 3)`. -/
def mismatched3d : DatasetM :=
  ⟨[⟨[1, 2, 2, 2], [List.replicate 8 (some 1)]⟩,
    ⟨[1, 2, 2, 3], [List.replicate 12 (some 2)]⟩], [0]⟩

/-- A 1-D dataset (one timestep) whose two items disagree in width:
item 0 is `(1, 5)`, item 1 is `(1, 4)`. -/
def mismatched1d : DatasetM :=
  ⟨[⟨[1, 5], [List.replicate 5 (some 1)]⟩,
    ⟨[1, 4], [List.replicate 4 (some 1)]⟩], [0]⟩

/-- The spec's 2-D scenario: a dataset whose first item has spatial
shape `(3, 5)` and whose second has `(3, 4)` (one timestep each). -/
def mismatched2d : DatasetM :=
  ⟨[⟨[1, 3, 5], [List.replicate 15 (some 1)]⟩,
    ⟨[1, 3, 4], [List.replicate 12 (some 1)]⟩], [0]⟩

/-- A layer-less `DfsuLayered` object (layer count `None`) whose
underlying geometry nevertheless has stored answers. -/
def noLayerGeom : DfsuLayeredM :=
  ⟨none, [5], [0], [2], [[0, 5]], [0, 1], [0, 0], [[0], [5]]⟩

/-- A two-timestep dataset (times 0 s and 10 s) with one 1-D item. -/
def dsTwoSteps : DatasetM :=
  ⟨[⟨[2, 2], [[some 1, none], [some 2, some 3]]⟩], [0, 10]⟩

/-- A single-timestep dataset with one 1-D item. -/
def dsOneStep : DatasetM :=
  ⟨[⟨[1, 2], [[some 1, none]]⟩], [0]⟩

/-- A non-equidistant three-timestep dataset (times 5 s, 6 s, 9 s) with
one 1-D item of width 2. -/
def dsNonEq : DatasetM :=
  ⟨[⟨[3, 2], [[some 1, none], [some 2, some 3], [none, none]]⟩], [5, 6, 9]⟩

/-- A one-item, one-timestep-per-row dataset used as an append argument
with a single row. -/
def shortAppendData : List DataArrayM :=
  [⟨[1, 2], [[some 1, none]]⟩]

/-- A one-item append argument with three rows. -/
def longAppendData : List DataArrayM :=
  [⟨[3, 2], [[some 1, none], [some 2, some 3], [some 4, some 5]]⟩]

/-- A two-element, three-node surface geometry: centers `(0,0)` and
`(10,0)`; nodes `(1,0)`, `(9,0)`, `(5,5)`. -/
def surfGeomEx : SurfaceGeom :=
  ⟨[(0, 0), (10, 0)], [(1, 0), (9, 0), (5, 5)]⟩

/-- Two timesteps of surface-node values on `surfGeomEx`. -/
def znEx : List (List ℚ) := [[100, 200, 300], [7, 8, 9]]

theorem prepareRecord_fst (dv : ℚ) (row : List Value) :
    (prepareRecord dv row).1 = substNaN dv row := by
  simp [prepareRecord, substNaN, List.map_map, Function.comp]

theorem mem_loopPairs {nT nI : Nat} {p : Nat × Nat} :
    p ∈ loopPairs nT nI ↔ p.1 < nT ∧ p.2 < nI := by
  cases p with
  | mk i it =>
    simp only [loopPairs, List.mem_flatMap, List.mem_map, List.mem_range,
      Prod.mk.injEq]
    constructor
    · rintro ⟨a, ha, b, hb, h1, h2⟩
      exact ⟨h1 ▸ ha, h2 ▸ hb⟩
    · rintro ⟨h1, h2⟩
      exact ⟨i, h1, it, h2, rfl, rfl⟩

theorem runSteps_append_ok {α : Type} (step : Nat × Nat → Except WriteError α)
    (f : Nat × Nat → α) (l1 l2 : List (Nat × Nat))
    (h : ∀ p ∈ l1, step p = .ok (f p)) :
    runSteps step (l1 ++ l2) =
      (l1.map f ++ (runSteps step l2).1, (runSteps step l2).2) := by
  induction l1 with
  | nil => simp
  | cons p t ih =>
    have hp := h p (by simp)
    have ht := ih (fun q hq => h q (by simp [hq]))
    simp [runSteps, hp, ht]

theorem runSteps_all_ok {α : Type} (step : Nat × Nat → Except WriteError α)
    (f : Nat × Nat → α) (l : List (Nat × Nat))
    (h : ∀ p ∈ l, step p = .ok (f p)) :
    runSteps step l = (l.map f, none) := by
  have := runSteps_append_ok step f l [] h
  simpa [runSteps] using this

theorem runSteps_error_head {α : Type} (step : Nat × Nat → Except WriteError α)
    (p : Nat × Nat) (l : List (Nat × Nat)) (e : WriteError)
    (h : step p = .error e) :
    runSteps step (p :: l) = ([], some e) := by
  simp [runSteps, h]

theorem loopPairs_add (k s nI : Nat) :
    loopPairs (k + s) nI =
      loopPairs k nI ++ (loopPairs s nI).map (fun p => (k + p.1, p.2)) := by
  simp only [loopPairs, List.range_add, List.flatMap_append, List.map_flatMap]
  congr 1
  induction List.range s with
  | nil => simp
  | cons a t ih => simp [List.flatMap_cons, ih, List.map_map, Function.comp]

theorem loopPairs_head (nT nI : Nat) (hT : 0 < nT) (hI : 0 < nI) :
    ∃ r, loopPairs nT nI = (0, 0) :: r := by
  obtain ⟨a, ha⟩ : ∃ a, nT = a + 1 := ⟨nT - 1, by omega⟩
  obtain ⟨b, hb⟩ : ∃ b, nI = b + 1 := ⟨nI - 1, by omega⟩
  subst ha hb
  rw [loopPairs, List.range_succ_eq_map a, List.flatMap_cons,
    List.range_succ_eq_map b, List.map_cons, List.cons_append]
  exact ⟨_, rfl⟩

theorem loopPairs_split_at (k nT nI : Nat) (hk : k < nT) (hI : 0 < nI) :
    ∃ r2, loopPairs nT nI = loopPairs k nI ++ (k, 0) :: r2 := by
  obtain ⟨m, hm⟩ : ∃ m, nT = k + (m + 1) := ⟨nT - k - 1, by omega⟩
  obtain ⟨r, hr⟩ := loopPairs_head (m + 1) nI (by omega) hI
  refine ⟨r.map (fun p => (k + p.1, p.2)), ?_⟩
  rw [hm, loopPairs_add, hr, List.map_cons, Nat.add_zero]

theorem loopPairs_length (nT nI : Nat) :
    (loopPairs nT nI).length = nT * nI := by
  induction nT with
  | zero => simp [loopPairs]
  | succ n ih =>
    rw [loopPairs_add n 1 nI, List.length_append, ih, List.length_map]
    simp [loopPairs, List.range_succ, Nat.succ_mul]

theorem wca_fields (ds : DatasetM) (dt : Option ℚ) :
    (writeHandleCommonArguments ds dt).n_timesteps = ds.time.length ∧
    (writeHandleCommonArguments ds dt).n_items = ds.data.length ∧
    (writeHandleCommonArguments ds dt).start_time = ds.time.headD 0 :=
  ⟨rfl, rfl, rfl⟩

theorem getD_map_lt {α β : Type} (f : α → β) (l : List α) (n : Nat)
    (hn : n < l.length) (d : β) (d2 : α) :
    (l.map f).getD n d = f (l.getD n d2) := by
  rw [List.getD_eq_getElem?_getD, List.getElem?_map,
    List.getElem?_eq_getElem hn, List.getD_eq_getElem?_getD,
    List.getElem?_eq_getElem hn]
  rfl

theorem dfsWrite_ok_eq (ndim : Nat) (dv : ℚ) (ds : DatasetM) (dt : Option ℚ)
    (out : WriteOut) (h : dfsWrite ndim dv ds dt = .ok out) :
    out = dfsWriteOk ndim dv ds dt := by
  unfold dfsWrite at h
  split at h
  · cases h
  · split at h
    · cases h
    · split at h
      · cases h
      · cases h
        rfl

theorem dataAfterWrite_id (dv : ℚ) (data : List DataArrayM) :
    dataAfterWrite dv data = data := by
  have h2 : ∀ r : List Value, (prepareRecord dv r).2 = r := fun _ => rfl
  unfold dataAfterWrite
  simp only [h2]
  have h3 : ∀ a : DataArrayM,
      ({ a with vals := a.vals.map (fun r => r) } : DataArrayM) = a := by
    intro a
    cases a with
    | mk s v => simp
  simp only [h3]
  exact List.map_id' data

/-- Claim C1 (amended): `_write` raises `DataDimensionMismatch` before
creating the file or writing any record whenever some item's spatial
shape disagrees per axis with item 0's, for 1-D targets (the x axis) and
for 2-D targets (the y or the x axis); 3-D targets are not covered by
this check. -/
theorem claim1_shape_mismatch_raises (dv : ℚ) (ds : DatasetM) (dt : Option ℚ) :
    (¬ (ds.data.all (fun a =>
        a.shape.getD (writeTOff 1 ds) 0 = (writeShape0 ds).getD (writeTOff 1 ds) 0)) →
      dfsWrite 1 dv ds dt = .error .dataDimensionMismatch) ∧
    ((¬ (ds.data.all (fun a =>
        a.shape.getD (writeTOff 2 ds) 0 = (writeShape0 ds).getD (writeTOff 2 ds) 0)) ∨
      ¬ (ds.data.all (fun a =>
        a.shape.getD (writeTOff 2 ds + 1) 0 = (writeShape0 ds).getD (writeTOff 2 ds + 1) 0))) →
      dfsWrite 2 dv ds dt = .error .dataDimensionMismatch) := by
  constructor
  · intro h
    unfold dfsWrite
    rw [if_pos ⟨rfl, h⟩]
  · intro h
    unfold dfsWrite
    rw [if_neg (by rintro ⟨h2, -⟩; exact absurd h2 (by decide))]
    by_cases hy : (ds.data.all (fun a =>
        a.shape.getD (writeTOff 2 ds) 0 = (writeShape0 ds).getD (writeTOff 2 ds) 0) : Prop)
    · rcases h with h | h
      · exact absurd hy h
      · rw [if_neg (by rintro ⟨-, hc⟩; exact hc hy), if_pos ⟨rfl, h⟩]
    · rw [if_pos ⟨rfl, hy⟩]

/-- Claim C1 counterexample: on a 3-D target the same spatial
disagreement is not checked at all — writing `mismatched3d` (items of
spatial shapes `(2,2,2)` and `(2,2,3)`) succeeds and emits its two
records instead of raising `DataDimensionMismatch`. -/
theorem claim1_counterexample_3d_unchecked :
    dfsWrite 3 0 mismatched3d none ≠ .error .dataDimensionMismatch ∧
    (dfsWrite 3 0 mismatched3d none).map (fun o => (o.records.length, o.err)) =
      .ok (2, none) := by
  constructor
  · decide
  · decide

/-- Claim C1 witness: concrete 1-D and 2-D mismatched datasets make
`_write` fail with `DataDimensionMismatch`. -/
theorem claim1_shape_mismatch_raises_witness :
    dfsWrite 1 0 mismatched1d none = .error .dataDimensionMismatch ∧
    dfsWrite 2 0 mismatched2d none = .error .dataDimensionMismatch :=
  ⟨(claim1_shape_mismatch_raises 0 mismatched1d none).1 (by decide),
   (claim1_shape_mismatch_raises 0 mismatched2d none).2 (Or.inr (by decide))⟩

/-- Claim C2 (code_bug evidence): when `CreateFile` raises an `IOError`,
`_setup_header` returns normally (the exception does not propagate: the
result is `.ok`, not `.error`) and the handle it hands back is the null
handle `none` — the writer continues with a null file handle. -/
theorem claim2_create_failure_swallowed (e : String) (h : DfsHandle) :
    setupHeaderFile (.error e) h = .ok none := rfl

/-- Claim C3 (amended): on a geometry whose layer count is `None`,
`layer_ids`, `elem2d_ids` and `get_layer_elements` raise
`InvalidGeometry`, while `top_elements`, `bottom_elements`,
`n_layers_per_column` and `e2_e3_table` print a message and return
`None` instead of raising. -/
theorem claim3_layer_queries_no_layers (g : DfsuLayeredM) (layer : Nat)
    (h : g.n_layers = none) :
    layer_ids g = .invalidGeometry ∧
    elem2d_ids g = .invalidGeometry ∧
    get_layer_elements g layer = .invalidGeometry ∧
    top_elements g = .printedNone ∧
    bottom_elements g = .printedNone ∧
    n_layers_per_column g = .printedNone ∧
    e2_e3_table g = .printedNone := by
  simp [layer_ids, elem2d_ids, get_layer_elements, top_elements,
    bottom_elements, n_layers_per_column, e2_e3_table, h]

/-- Claim C3 counterexample: on the concrete layer-less geometry
`noLayerGeom`, the queries `top_elements`, `bottom_elements`,
`n_layers_per_column` and `e2_e3_table` do not raise `InvalidGeometry`;
they take the print-and-return-`None` path. -/
theorem claim3_counterexample_print_not_raise :
    top_elements noLayerGeom = .printedNone ∧
    bottom_elements noLayerGeom = .printedNone ∧
    n_layers_per_column noLayerGeom = .printedNone ∧
    e2_e3_table noLayerGeom = .printedNone ∧
    top_elements noLayerGeom ≠ .invalidGeometry ∧
    bottom_elements noLayerGeom ≠ .invalidGeometry ∧
    n_layers_per_column noLayerGeom ≠ .invalidGeometry ∧
    e2_e3_table noLayerGeom ≠ .invalidGeometry := by
  refine ⟨rfl, rfl, rfl, rfl, ?_, ?_, ?_, ?_⟩ <;> decide

/-- Claim C3 witness: the amended statement instantiated at
`noLayerGeom` with layer `0`. -/
theorem claim3_layer_queries_no_layers_witness :
    layer_ids noLayerGeom = .invalidGeometry ∧
    elem2d_ids noLayerGeom = .invalidGeometry ∧
    get_layer_elements noLayerGeom 0 = .invalidGeometry ∧
    top_elements noLayerGeom = .printedNone ∧
    bottom_elements noLayerGeom = .printedNone ∧
    n_layers_per_column noLayerGeom = .printedNone ∧
    e2_e3_table noLayerGeom = .printedNone :=
  claim3_layer_queries_no_layers noLayerGeom 0 rfl

/-- Claim C5 (code_bug evidence): reading a 2-D file (`ny = 3`,
`nx = 4`) at a single scalar time gives an item of shape `[3, 4]` when
`keepdims` is false — as the claim states — but also shape `[3, 4]`
when `keepdims` is true: the loop's rebinding `data_list[item] = d`
discards the buffer that was allocated with the intended leading
length-1 time axis `[1, 3, 4]`. -/
theorem claim5_keepdims_ignored :
    readFinalItemShape 2 4 3 0 1 true false = [3, 4] ∧
    readAllocShape 2 4 3 0 1 true true = [1, 3, 4] ∧
    readFinalItemShape 2 4 3 0 1 true true = [3, 4] ∧
    readFinalItemShape 2 4 3 0 1 true true ≠ [1, 3, 4] := by
  refine ⟨rfl, rfl, rfl, ?_⟩
  decide

/-- Claim C8 (amended): the timestep precedence explicit argument >
Dataset-derived > 1-second default holds for every non-zero explicit
`dt`; the Dataset-derived step is used exactly when `dt` is absent and
there is more than one timestep; whenever `self._dt` is still unset the
default `1` is taken and the only side effect is a warning (emitted iff
there is more than one timestep); an explicit `dt = 0` is falsy, so it
is treated as absent and — since the derivation also requires `dt is
None` — falls through to the warned 1-second default. -/
theorem claim8_dt_precedence (ds : DatasetM) (dt : Option ℚ) :
    (∀ v : ℚ, dt = some v → v ≠ 0 →
      (writeHandleCommonArguments ds dt).dt = v ∧
      (writeHandleCommonArguments ds dt).warned = false) ∧
    (dt = none → 1 < ds.time.length →
      (writeHandleCommonArguments ds dt).dt = ds.time.getD 1 0 - ds.time.getD 0 0 ∧
      (writeHandleCommonArguments ds dt).warned = false) ∧
    (dtChosen ds dt = none →
      (writeHandleCommonArguments ds dt).dt = 1 ∧
      (writeHandleCommonArguments ds dt).warned = decide (1 < ds.time.length)) ∧
    (dt = some 0 → dtChosen ds dt = none) := by
  refine ⟨?_, ?_, ?_, ?_⟩
  · intro v hv hv0
    subst hv
    simp [writeHandleCommonArguments, dtChosen, hv0]
  · intro hn hlen
    subst hn
    simp [writeHandleCommonArguments, dtChosen, dtDerived, hlen]
  · intro h
    simp [writeHandleCommonArguments, h]
  · intro h0
    subst h0
    simp [dtChosen, dtDerived]

/-- Claim C8 counterexample: with two timesteps 10 s apart and the
explicitly supplied argument `dt = 0`, the chosen step is the default
`1` (with the warning emitted), not the supplied `0` — the explicit
argument does not win for the value `0`. -/
theorem claim8_counterexample_zero_dt :
    (writeHandleCommonArguments dsTwoSteps (some 0)).dt = 1 ∧
    (writeHandleCommonArguments dsTwoSteps (some 0)).warned = true ∧
    (writeHandleCommonArguments dsTwoSteps (some 0)).dt ≠ 0 := by
  refine ⟨rfl, rfl, ?_⟩
  decide

/-- Claim C8 witness: the amended precedence at concrete inputs — an
explicit `dt = 7` wins over the derivable step `10`; with no `dt` the
derived step `10` is used without warning; on a one-step dataset with no
`dt` the default `1` is taken and no warning is emitted. -/
theorem claim8_dt_precedence_witness :
    (writeHandleCommonArguments dsTwoSteps (some 7)).dt = 7 ∧
    (writeHandleCommonArguments dsTwoSteps none).dt =
      dsTwoSteps.time.getD 1 0 - dsTwoSteps.time.getD 0 0 ∧
    (writeHandleCommonArguments dsOneStep none).dt = 1 ∧
    (writeHandleCommonArguments dsOneStep none).warned =
      decide (1 < dsOneStep.time.length) :=
  ⟨((claim8_dt_precedence dsTwoSteps (some 7)).1 7 rfl (by norm_num)).1,
   ((claim8_dt_precedence dsTwoSteps none).2.1 rfl (by decide)).1,
   ((claim8_dt_precedence dsOneStep none).2.2.1 (by decide)).1,
   ((claim8_dt_precedence dsOneStep none).2.2.1 (by decide)).2⟩

/-- Claim C4: `append` on a file whose stored time axis is
non-equidistant raises `NotImplementedError` at the very first loop
iteration — before any record has been written — and the method never
closes the file handle, so the file is left open. -/
theorem claim4_append_nonequidistant (dv : ℚ) (nT nI : Nat)
    (data : List DataArrayM) (hT : 0 < nT) (hI : 0 < nI)
    (hrow : ((data.get? 0).bind (fun a => a.vals.get? 0)).isSome = true) :
    dfsAppend dv false nT nI data =
      { records := [], err := some .notImplemented, closed := false,
        dataAfter := dataAfterWrite dv data } := by
  obtain ⟨r, hr⟩ := loopPairs_head nT nI hT hI
  obtain ⟨row, hrow2⟩ := Option.isSome_iff_exists.mp hrow
  have hstep : appendStep dv false data (0, 0) = .error .notImplemented := by
    have h2 := hrow2
    simp only [List.get?_eq_getElem?] at h2
    simp [appendStep, h2]
  unfold dfsAppend
  rw [hr, runSteps_error_head _ _ _ _ hstep]

/-- Claim C4 witness: appending one concrete row to a two-timestep
non-equidistant file raises before writing anything and leaves the
handle open. -/
theorem claim4_append_nonequidistant_witness :
    dfsAppend 0 false 2 1 shortAppendData =
      { records := [], err := some .notImplemented, closed := false,
        dataAfter := dataAfterWrite 0 shortAppendData } :=
  claim4_append_nonequidistant 0 2 1 shortAppendData (by decide) (by decide)
    (by decide)

/-- Claim C7: neither `_write` nor `append` mutates the caller's
in-memory Dataset — each record buffer is defensively copied before NaN
cells are replaced by the delete-value sentinel, so the data after
either operation equals the input, NaN positions included. -/
theorem claim7_no_input_mutation (dv : ℚ) (equid : Bool) (nT nI ndim : Nat)
    (data : List DataArrayM) (ds : DatasetM) (dt : Option ℚ) :
    dataAfterWrite dv data = data ∧
    (dfsAppend dv equid nT nI data).dataAfter = data ∧
    (dfsWrite ndim dv ds dt).map WriteOut.dataAfter =
      (dfsWrite ndim dv ds dt).map (fun _ => ds.data) := by
  refine ⟨dataAfterWrite_id dv data, dataAfterWrite_id dv data, ?_⟩
  cases h : dfsWrite ndim dv ds dt with
  | error e => rfl
  | ok out =>
    have hout := dfsWrite_ok_eq ndim dv ds dt out h
    simp only [Except.map]
    rw [hout]
    have : (dfsWriteOk ndim dv ds dt).dataAfter = ds.data :=
      dataAfterWrite_id dv ds.data
    rw [this]

/-- Claim C6: for every record `_write` pushes, the relative time offset
is `0` on an equidistant time axis, and `time[i] - time[0]` (in seconds)
for timestep `i` on a non-equidistant axis; the Dataset's first
timestamp also becomes the file's start time, and the file's axis kind
follows the Dataset's. -/
theorem claim6_write_time_offsets (ndim : Nat) (dv : ℚ) (ds : DatasetM)
    (dt : Option ℚ) (out : WriteOut) (rows : Nat → Nat → List Value)
    (hrow : ∀ i, i < ds.time.length → ∀ it, it < ds.data.length →
      rowAt (writeTOff ndim ds) ds.data it i = some (rows it i))
    (h : dfsWrite ndim dv ds dt = .ok out) :
    out.fileStart = ds.time.headD 0 ∧
    out.axisEquidistant = isEquidistantTime ds.time ∧
    out.records = (List.range ds.time.length).flatMap (fun i =>
      (List.range ds.data.length).map (fun it =>
        ((if isEquidistantTime ds.time then 0
          else ds.time.getD i 0 - ds.time.headD 0),
         substNaN dv (rows it i)))) := by
  rw [dfsWrite_ok_eq ndim dv ds dt out h]
  have hstart : (if isEquidistantTime ds.time then
      (writeHandleCommonArguments ds dt).start_time else ds.time.headD 0) =
      ds.time.headD 0 := by
    cases hE : isEquidistantTime ds.time <;> simp [hE, writeHandleCommonArguments]
  refine ⟨hstart, rfl, ?_⟩
  have hok : ∀ p ∈ loopPairs ds.time.length ds.data.length,
      writeStep dv (isEquidistantTime ds.time)
        (if isEquidistantTime ds.time then
          (writeHandleCommonArguments ds dt).start_time else ds.time.headD 0)
        ds.time (writeTOff ndim ds) ds.data p =
      .ok ((if isEquidistantTime ds.time then 0
            else ds.time.getD p.1 0 - ds.time.headD 0),
           substNaN dv (rows p.2 p.1)) := by
    intro p hp
    obtain ⟨h1, h2⟩ := mem_loopPairs.mp hp
    have hr := hrow p.1 h1 p.2 h2
    cases hE : isEquidistantTime ds.time with
    | true =>
      simp [writeStep, hr, hE, prepareRecord_fst]
    | false =>
      simp [writeStep, hr, hE, prepareRecord_fst]
  have hruns := runSteps_all_ok _ _ _ hok
  show (runSteps (writeStep dv (isEquidistantTime ds.time)
      (if isEquidistantTime ds.time then
        (writeHandleCommonArguments ds dt).start_time else ds.time.headD 0)
      ds.time (writeTOff ndim ds) ds.data)
      (loopPairs ds.time.length ds.data.length)).1 = _
  rw [hruns]
  simp only [loopPairs, List.map_flatMap, List.map_map]
  rfl

/-- Claim C6 witness: writing the concrete non-equidistant dataset
`dsNonEq` (times 5 s, 6 s, 9 s) onto a 1-D target: start time 5 s, a
non-equidistant target axis, and per-record offsets `time[i] - time[0]`. -/
theorem claim6_write_time_offsets_witness :
    (dfsWriteOk 1 0 dsNonEq none).fileStart = dsNonEq.time.headD 0 ∧
    (dfsWriteOk 1 0 dsNonEq none).axisEquidistant =
      isEquidistantTime dsNonEq.time ∧
    (dfsWriteOk 1 0 dsNonEq none).records =
      (List.range dsNonEq.time.length).flatMap (fun i =>
        (List.range dsNonEq.data.length).map (fun it =>
          ((if isEquidistantTime dsNonEq.time then 0
            else dsNonEq.time.getD i 0 - dsNonEq.time.headD 0),
           substNaN 0 ((dsNonEq.data.getD it ⟨[], []⟩).vals.getD i [])))) :=
  claim6_write_time_offsets 1 0 dsNonEq none (dfsWriteOk 1 0 dsNonEq none)
    (fun it i => (dsNonEq.data.getD it ⟨[], []⟩).vals.getD i [])
    (by decide) rfl

/-- Claim C9: with `n_nearest = 1`, surface extraction returns at every
2-D element and timestep exactly the value at the single nearest node —
the node of minimal distance to the element center — and the weights
passed to the interpolator are `None`, so no inverse-distance blending
occurs. -/
theorem claim9_surface_nearest (g : SurfaceGeom) (zn : List (List ℚ))
    (t e i : Nat) (ht : t < zn.length) (he : e < g.elemCenters.length)
    (hi : (List.range g.nodeCoords.length).argmin (nodeDist g e) = some i) :
    (∀ j, j < g.nodeCoords.length → nodeDist g e i ≤ nodeDist g e j) ∧
    surfWeights g 1 = none ∧
    ((extractSurface g zn 1).getD t []).getD e 0 = (zn.getD t []).getD i 0 := by
  refine ⟨?_, rfl, ?_⟩
  · intro j hj
    exact List.le_of_mem_argmin (List.mem_range.mpr hj) (Option.mem_def.mpr hi)
  · have hq : kQuery (nodeDist g e) g.nodeCoords.length 1 = [i] := by
      unfold kQuery kQueryGo
      rw [hi]
      rfl
    have hsurf : extractSurface g zn 1 =
        zn.map (fun row => ((List.range g.elemCenters.length).map (fun e2 =>
          kQuery (nodeDist g e2) g.nodeCoords.length 1)).map
            (fun ids => row.getD (ids.headD 0) 0)) := rfl
    rw [hsurf, getD_map_lt _ _ _ ht _ []]
    rw [List.map_map,
      getD_map_lt _ _ _ (by rw [List.length_range]; exact he) _ 0]
    have hrange : (List.range g.elemCenters.length).getD e 0 = e := by
      rw [List.getD_eq_getElem?_getD, List.getElem?_range he]
      rfl
    rw [hrange]
    simp only [Function.comp]
    rw [hq]
    rfl

/-- Claim C9 witness: on the concrete two-element geometry `surfGeomEx`
with nodes `(1,0)`, `(9,0)`, `(5,5)`, element 1 (center `(10,0)`) takes
node 1's value with no weights. -/
theorem claim9_surface_nearest_witness :
    (∀ j, j < surfGeomEx.nodeCoords.length →
      nodeDist surfGeomEx 1 1 ≤ nodeDist surfGeomEx 1 j) ∧
    surfWeights surfGeomEx 1 = none ∧
    ((extractSurface surfGeomEx znEx 1).getD 0 []).getD 1 0 =
      (znEx.getD 0 []).getD 1 0 :=
  claim9_surface_nearest surfGeomEx znEx 0 1 1 (by decide) (by decide)
    (by
      show (List.range 3).argmin (nodeDist surfGeomEx 1) = some 1
      rw [show List.range 3 = [0, 1, 2] from rfl]
      norm_num [List.argmin, List.argAux, surfGeomEx, nodeDist, dist2])

/-- Claim C10: `append` iterates over the engine's stored timestep count
`self._n_timesteps` from the preceding write, not over the appended
data's own length: on an equidistant file, appending a dataset with only
`k < n_timesteps` rows per item raises `IndexError` after `k * n_items`
records have been written (at least one), while appending a dataset with
at least `n_timesteps` rows writes exactly the first `n_timesteps` rows
of each item and silently drops the rest. -/
theorem claim10_append_uses_stored_count (dv : ℚ) (nT nI k : Nat)
    (dShort dLong : List DataArrayM) (rs rl : Nat → Nat → List Value)
    (hk : 0 < k) (hkn : k < nT) (hI : 0 < nI)
    (hshort : ∀ it, it < nI → ∀ i,
      ((dShort.get? it).bind (fun a => a.vals.get? i)) =
        if i < k then some (rs it i) else none)
    (hlong : ∀ it, it < nI → ∀ i, i < nT →
      ((dLong.get? it).bind (fun a => a.vals.get? i)) = some (rl it i)) :
    ((dfsAppend dv true nT nI dShort).err = some .indexError ∧
     (dfsAppend dv true nT nI dShort).records.length = k * nI ∧
     0 < (dfsAppend dv true nT nI dShort).records.length) ∧
    ((dfsAppend dv true nT nI dLong).err = none ∧
     (dfsAppend dv true nT nI dLong).records =
       (List.range nT).flatMap (fun i => (List.range nI).map (fun it =>
         substNaN dv (rl it i)))) := by
  obtain ⟨r2, hr2⟩ := loopPairs_split_at k nT nI hkn hI
  have hok1 : ∀ p ∈ loopPairs k nI,
      appendStep dv true dShort p = .ok (substNaN dv (rs p.2 p.1)) := by
    intro p hp
    obtain ⟨h1, h2⟩ := mem_loopPairs.mp hp
    have hs := hshort p.2 h2 p.1
    rw [if_pos h1] at hs
    simp only [appendStep]
    rw [hs]
    simp [prepareRecord_fst]
  have hstep0 : appendStep dv true dShort (k, 0) = .error .indexError := by
    have hs := hshort 0 hI k
    rw [if_neg (lt_irrefl k)] at hs
    simp only [appendStep]
    rw [hs]
  have hcomp : runSteps (appendStep dv true dShort) (loopPairs nT nI) =
      ((loopPairs k nI).map (fun p => substNaN dv (rs p.2 p.1)),
        some .indexError) := by
    rw [hr2, runSteps_append_ok _ _ _ _ hok1,
      runSteps_error_head _ _ _ _ hstep0]
    simp
  have hok2 : ∀ p ∈ loopPairs nT nI,
      appendStep dv true dLong p = .ok (substNaN dv (rl p.2 p.1)) := by
    intro p hp
    obtain ⟨h1, h2⟩ := mem_loopPairs.mp hp
    have hs := hlong p.2 h2 p.1 h1
    simp only [appendStep]
    rw [hs]
    simp [prepareRecord_fst]
  have hcomp2 := runSteps_all_ok _ _ _ hok2
  refine ⟨⟨?_, ?_, ?_⟩, ?_, ?_⟩
  · show (runSteps (appendStep dv true dShort) (loopPairs nT nI)).2 =
      some .indexError
    rw [hcomp]
  · show (runSteps (appendStep dv true dShort) (loopPairs nT nI)).1.length =
      k * nI
    rw [hcomp]
    simp [loopPairs_length]
  · show 0 < (runSteps (appendStep dv true dShort) (loopPairs nT nI)).1.length
    rw [hcomp]
    simp [loopPairs_length]
    exact ⟨hk, hI⟩
  · show (runSteps (appendStep dv true dLong) (loopPairs nT nI)).2 = none
    rw [hcomp2]
  · show (runSteps (appendStep dv true dLong) (loopPairs nT nI)).1 = _
    rw [hcomp2]
    simp only [loopPairs, List.map_flatMap, List.map_map]
    rfl

/-- Claim C10 witness: a file written with 2 timesteps and 1 item —
appending a 1-row dataset writes 1 record then raises `IndexError`;
appending a 3-row dataset writes exactly the first 2 rows and drops the
third. -/
theorem claim10_append_uses_stored_count_witness :
    ((dfsAppend 0 true 2 1 shortAppendData).err = some .indexError ∧
     (dfsAppend 0 true 2 1 shortAppendData).records.length = 1 * 1 ∧
     0 < (dfsAppend 0 true 2 1 shortAppendData).records.length) ∧
    ((dfsAppend 0 true 2 1 longAppendData).err = none ∧
     (dfsAppend 0 true 2 1 longAppendData).records =
       (List.range 2).flatMap (fun i => (List.range 1).map (fun it =>
         substNaN 0 ((longAppendData.getD it ⟨[], []⟩).vals.getD i [])))) :=
  claim10_append_uses_stored_count 0 2 1 1 shortAppendData longAppendData
    (fun _ _ => [some 1, none])
    (fun it i => (longAppendData.getD it ⟨[], []⟩).vals.getD i [])
    (by decide) (by decide) (by decide)
    (by
      intro it hit i
      interval_cases it
      cases i with
      | zero => rfl
      | succ n =>
        simp [shortAppendData, List.get?_eq_getElem?, Nat.lt_one_iff])
    (by decide)

end Mikeio
